import Mathlib

/-!
Verification of the pkger HTTP transport (src/pkger/http_server.go):
encoding resolution, package source resolution, and the apply/create
handlers.  Go definitions are shallowly embedded as executable Lean
functions; the external collaborators (the reconciliation engine's
DryRun/Apply/CreatePkg capabilities, the authorizer, the byte-level
decoders and the remote fetch) are passed in as explicit parameters, and
the handlers additionally return a record of which collaborator calls
they made.
-/

namespace Pkger

/-- Encoding is the enumerated serialization format tag
(pkger parser constants EncodingSource/EncodingJSON/EncodingJsonnet/EncodingYAML). -/
inductive Encoding
  | EncodingSource
  | EncodingJSON
  | EncodingJsonnet
  | EncodingYAML
  deriving DecidableEq, Repr

/-- influxdb.ID: a 64-bit identifier, modelled as a natural number. -/
abbrev ID := Nat

/-- The acting user identifier extracted from the authorizer. -/
abbrev UserID := Nat

/-- Opaque Summary value produced by the reconciliation engine (pass-through). -/
structure Summary where
  val : Nat
  deriving DecidableEq, Repr

/-- Opaque Diff value produced by the reconciliation engine (pass-through). -/
structure Diff where
  val : Nat
  deriving DecidableEq, Repr

/-- One structured validation failure (pkger ValidationErr), opaque here. -/
structure ValidationErr where
  msg : String
  deriving DecidableEq, Repr

/-- Opaque parsed package (pkger Pkg). -/
structure Pkg where
  val : Nat
  deriving DecidableEq, Repr

/-- Opaque resource-clone descriptor (pkger ResourceToClone). -/
structure ResourceToClone where
  kind : String
  deriving DecidableEq, Repr

/-- Opaque exported object (pkger Object, element of RespCreatePkg). -/
structure Object where
  val : Nat
  deriving DecidableEq, Repr

/-- A Go error value from a collaborator call, carrying whether it is a
ParseError (type-assertable to pkger.ParseError) and, when so, its
ValidationErrs.  A nil Go error is `Option.none` at use sites. -/
structure SvcErr where
  isParse : Bool
  validationErrs : List ValidationErr
  deriving DecidableEq, Repr

/-- IsParseErr reports whether a (possibly nil) error is a ParseError;
a nil error is not. -/
def IsParseErr : Option SvcErr → Bool
  | none => false
  | some e => e.isParse

/-- convertParseErr type-asserts the error to ParseError and returns its
ValidationErrs, or nil (here: the empty list) when the assertion fails. -/
def convertParseErr : Option SvcErr → List ValidationErr
  | none => []
  | some e => if e.isParse then e.validationErrs else []

/-- Go path.Ext scan: walk the string backwards; the extension starts at
the final dot in the final slash-separated element. -/
def pathExtAux : List Char → List Char → String
  | [], _ => ""
  | c :: rest, acc =>
    if c = '/' then ""
    else if c = '.' then String.mk ('.' :: acc)
    else pathExtAux rest (c :: acc)

/-- path.Ext: the file name extension of the path, empty if there is none. -/
def pathExt (p : String) : String :=
  pathExtAux p.data.reverse []

/-- Go strings.ToLower, for the ASCII content-type names this file
compares against. -/
def strToLower (s : String) : String :=
  String.mk (s.data.map Char.toLower)

/-- PkgRemote provides a package via a remote: a URL and an optional
explicit content type. -/
structure PkgRemote where
  URL : String
  ContentType : String
  deriving DecidableEq, Repr

/-- PkgRemote.Encoding: the encoding derived from the remote's lowercased
content type and the URL's file extension, by the ordered dispatch
jsonnet, json, yml/yaml, else source. -/
def PkgRemote.Encoding (p : PkgRemote) : Pkger.Encoding :=
  let ct := strToLower p.ContentType
  let urlBase := pathExt p.URL
  if ct = "jsonnet" ∨ urlBase = ".jsonnet" then .EncodingJsonnet
  else if ct = "json" ∨ urlBase = ".json" then .EncodingJSON
  else if ct = "yml" ∨ ct = "yaml" ∨ urlBase = ".yml" ∨ urlBase = ".yaml" then .EncodingYAML
  else .EncodingSource

/-- http.Header.Get for the Content-Type header: the header's value when
present, the empty string when absent. -/
def headerGet : Option String → String
  | none => ""
  | some v => v

/-- pkgEncoding: case-sensitive switch on the request's Content-Type
header value; anything unrecognized (including an absent header)
defaults to JSON. -/
def pkgEncoding (contentTypeHeader : Option String) : Encoding :=
  let contentType := headerGet contentTypeHeader
  if contentType = "application/x-jsonnet" then .EncodingJsonnet
  else if contentType = "text/yml" ∨ contentType = "application/x-yaml" then .EncodingYAML
  else .EncodingJSON

/-- Hex digit test, as used by identifier parsing. -/
def isHexDigit (c : Char) : Bool :=
  ('0' ≤ c ∧ c ≤ '9') ∨ ('a' ≤ c ∧ c ≤ 'f') ∨ ('A' ≤ c ∧ c ≤ 'F')

/-- Value of one hex digit. -/
def hexDigitVal (c : Char) : Nat :=
  if '0' ≤ c ∧ c ≤ '9' then c.toNat - '0'.toNat
  else if 'a' ≤ c ∧ c ≤ 'f' then c.toNat - 'a'.toNat + 10
  else if 'A' ≤ c ∧ c ≤ 'F' then c.toNat - 'A'.toNat + 10
  else 0

/-- Value of a hex string, most significant digit first. -/
def hexVal (s : String) : Nat :=
  s.data.foldl (fun acc c => acc * 16 + hexDigitVal c) 0

/-- Modelled from the spec: `influxdb.IDFromString` (not under src/) parses
an identifier string; the spec calls its success case a "well-formed
identifier".  Modelled as 16 hexadecimal characters encoding a nonzero
64-bit value; failure is `none`.  The handler claims below depend only on
whether this parse succeeds, not on the exact grammar. -/
def IDFromString (s : String) : Option ID :=
  if s.length = 16 ∧ s.data.all isHexDigit then
    let v := hexVal s
    if v = 0 then none else some v
  else none

/-- influxdb error codes used by this transport. -/
inductive ErrCode
  | EInternal
  | EInvalid
  | EUnprocessableEntity
  | EConflict
  | EUnauthorized
  deriving DecidableEq, Repr

/-- Modelled from the spec: the general error-to-status translation
(HandleHTTPError's code-to-HTTP-status mapping, not under src/), for the
codes this transport produces; the spec only requires these to be the
usual 4xx/5xx statuses. -/
def errCodeStatus : ErrCode → Nat
  | .EInternal => 500
  | .EInvalid => 400
  | .EUnprocessableEntity => 422
  | .EConflict => 409
  | .EUnauthorized => 401

/-- An error handed to HandleHTTPError by one of the two handlers.  For
errors the handler constructs itself the influxdb.Error code is recorded;
a collaborator's error is passed through unchanged. -/
inductive HandledErr
  /-- newDecodeErr: request body failed to decode (code EInvalid). -/
  | decodeFailed
  /-- invalid organization ID provided (code EConflict). -/
  | invalidOrgID (orgID : String)
  /-- pctx.GetAuthorizer failed: no authorizer on the context (spec: Unauthorized). -/
  | authFailed
  /-- failed to parse package from provided URL (code EInvalid). -/
  | pkgResolveFailed
  /-- at least 1 resource or 1 org id must be provided (code EUnprocessableEntity). -/
  | emptyCreateReq
  /-- an error from a collaborator call, passed through to HandleHTTPError. -/
  | svcFailed (e : Option SvcErr)
  deriving DecidableEq, Repr

/-- The influxdb.Error code of a handler-constructed error; a passed-through
collaborator error is translated by the general mapping from its own code,
which this model leaves opaque (`none`). -/
def HandledErr.code : HandledErr → Option ErrCode
  | .decodeFailed => some .EInvalid
  | .invalidOrgID _ => some .EConflict
  | .authFailed => some .EUnauthorized
  | .pkgResolveFailed => some .EInvalid
  | .emptyCreateReq => some .EUnprocessableEntity
  | .svcFailed _ => none

/-- The source a package is parsed from: pkger's FromHTTPRequest reader
(remote fetch) or FromReader over the inline raw payload. -/
inductive PkgSource
  | fromHTTPRequest (url : String)
  | fromReader (raw : String)
  deriving DecidableEq, Repr

/-- ReqApplyPkg: the apply endpoint's request body. -/
structure ReqApplyPkg where
  DryRun : Bool
  OrgID : String
  Remote : PkgRemote
  RawPkg : String
  Secrets : List (String × String)
  deriving DecidableEq, Repr

/-- ReqApplyPkg.Pkg: parse the package, from the remote URL with the
remote's own derived encoding when the URL is non-empty, else from the
inline raw payload with the given (header-derived) encoding.  The pkger
Parse function is an external collaborator, passed in as `parse`. -/
def ReqApplyPkg.Pkg (r : ReqApplyPkg)
    (parse : Encoding → PkgSource → Option Pkger.Pkg) (encoding : Encoding) :
    Option Pkger.Pkg :=
  if r.Remote.URL ≠ "" then
    parse r.Remote.Encoding (.fromHTTPRequest r.Remote.URL)
  else
    parse encoding (.fromReader r.RawPkg)

/-- RespApplyPkg: the apply endpoint's response body.  `Errors` is a list;
the empty list stands for Go's nil/omitted `errors` field (omitempty). -/
structure RespApplyPkg where
  Diff : Pkger.Diff
  Summary : Pkger.Summary
  Errors : List ValidationErr
  deriving DecidableEq, Repr

/-- CreatePkgSetFn options passed to the CreatePkg capability. -/
inductive CreatePkgSetFn
  | CreateWithExistingResources (resources : List ResourceToClone)
  | CreateWithAllOrgResources (orgID : ID)
  deriving DecidableEq, Repr

/-- ReqCreatePkg: the export/create endpoint's request body. -/
structure ReqCreatePkg where
  OrgIDs : List String
  Resources : List ResourceToClone
  deriving DecidableEq, Repr

/-- SVC: the backing pkger service capabilities the transport consumes. -/
structure SVC where
  DryRun : ID → UserID → Pkger.Pkg → Summary × Pkger.Diff × Option SvcErr
  Apply : ID → UserID → Pkger.Pkg → List (String × String) → Summary × Option SvcErr
  CreatePkg : List CreatePkgSetFn → Except SvcErr (List Object)

/-- Which collaborator calls the apply handler made. -/
structure CallLog where
  dryRunCalled : Bool
  applyCalled : Bool
  deriving DecidableEq, Repr

/-- The apply handler's observable result: either an error handed to
HandleHTTPError (a structured error body, no diff and no summary), or a
JSON response with a status code and a RespApplyPkg body. -/
inductive ApplyResult
  | handledError (e : HandledErr)
  | jsonResp (status : Nat) (body : RespApplyPkg)
  deriving DecidableEq, Repr

/-- HTTPServer.applyPkg.  The byte-level body decode is a collaborator:
`decodeResult` is `none` when decodeWithEncoding failed and `some reqBody`
when it produced a request body.  The authorizer, the Parse function and
the service are likewise passed in.  Returns the response and the log of
DryRun/Apply calls made. -/
def applyPkg (svc : SVC) (authorizer : Option UserID)
    (parse : Encoding → PkgSource → Option Pkger.Pkg)
    (contentTypeHeader : Option String)
    (decodeResult : Option ReqApplyPkg) : ApplyResult × CallLog :=
  match decodeResult with
  | none => (.handledError .decodeFailed, ⟨false, false⟩)
  | some reqBody =>
    match IDFromString reqBody.OrgID with
    | none => (.handledError (.invalidOrgID reqBody.OrgID), ⟨false, false⟩)
    | some orgID =>
      match authorizer with
      | none => (.handledError .authFailed, ⟨false, false⟩)
      | some userID =>
        match reqBody.Pkg parse (pkgEncoding contentTypeHeader) with
        | none => (.handledError .pkgResolveFailed, ⟨false, false⟩)
        | some parsedPkg =>
          match svc.DryRun orgID userID parsedPkg with
          | (sum, diff, derr) =>
            if IsParseErr derr then
              (.jsonResp 422 ⟨diff, sum, convertParseErr derr⟩, ⟨true, false⟩)
            else if derr.isSome then
              (.handledError (.svcFailed derr), ⟨true, false⟩)
            else if reqBody.DryRun then
              (.jsonResp 200 ⟨diff, sum, []⟩, ⟨true, false⟩)
            else
              match svc.Apply orgID userID parsedPkg reqBody.Secrets with
              | (sum2, aerr) =>
                if aerr.isSome && !(IsParseErr aerr) then
                  (.handledError (.svcFailed aerr), ⟨true, true⟩)
                else
                  (.jsonResp 201 ⟨diff, sum2, convertParseErr aerr⟩, ⟨true, true⟩)

/-- The create handler's observable result: an error handed to
HandleHTTPError, or a body of objects encoded with the given encoding at
the given status. -/
inductive CreateResult
  | handledError (e : HandledErr)
  | encodedResp (encoding : Encoding) (status : Nat) (body : List Object)
  deriving DecidableEq, Repr

/-- HTTPServer.createPkg.  `decodeResult` is the outcome of the JSON body
decode.  Returns the response together with the CreatePkg call made
(`none` when the service was never called, else the options passed). -/
def createPkg (svc : SVC) (contentTypeHeader : Option String)
    (decodeResult : Option ReqCreatePkg) :
    CreateResult × Option (List CreatePkgSetFn) :=
  let encoding := pkgEncoding contentTypeHeader
  match decodeResult with
  | none => (.handledError .decodeFailed, none)
  | some reqBody =>
    if reqBody.Resources.length = 0 ∧ reqBody.OrgIDs.length = 0 then
      (.handledError .emptyCreateReq, none)
    else
      let opts := reqBody.OrgIDs.foldl
        (fun opts orgIDStr =>
          match IDFromString orgIDStr with
          | none => opts
          | some orgID => opts ++ [.CreateWithAllOrgResources orgID])
        [.CreateWithExistingResources reqBody.Resources]
      match svc.CreatePkg opts with
      | .error e => (.handledError (.svcFailed (some e)), some opts)
      | .ok objects =>
        let respEncoding := match encoding with
          | .EncodingYAML => Encoding.EncodingYAML
          | _ => Encoding.EncodingJSON
        (.encodedResp respEncoding 200 objects, some opts)

/-! Auxiliary definitions used to state properties of the remote encoding
dispatch, and concrete collaborator fixtures used to instantiate the
handler theorems. -/

/-- The encoding a recognized (lowercased) explicit content-type names:
the content-type arm of each case of PkgRemote.Encoding's dispatch. -/
def ctEncoding (ct : String) : Option Encoding :=
  if ct = "jsonnet" then some .EncodingJsonnet
  else if ct = "json" then some .EncodingJSON
  else if ct = "yml" ∨ ct = "yaml" then some .EncodingYAML
  else none

/-- The encoding a recognized URL file extension names: the extension arm
of each case of PkgRemote.Encoding's dispatch. -/
def extEncoding (ext : String) : Option Encoding :=
  if ext = ".jsonnet" then some .EncodingJsonnet
  else if ext = ".json" then some .EncodingJSON
  else if ext = ".yml" ∨ ext = ".yaml" then some .EncodingYAML
  else none

/-- Position of each encoding in PkgRemote.Encoding's fixed dispatch order
(jsonnet, then json, then yml/yaml, then the source fallback). -/
def encodingRank : Encoding → Nat
  | .EncodingJsonnet => 0
  | .EncodingJSON => 1
  | .EncodingYAML => 2
  | .EncodingSource => 3

/-- Fixture: a Parse collaborator that always succeeds. -/
def parseAny : Encoding → PkgSource → Option Pkg := fun _ _ => some ⟨7⟩

/-- Fixture: a Parse collaborator whose result records the encoding it was
handed, to observe which encoding the handler chose. -/
def parseTag : Encoding → PkgSource → Option Pkg := fun e _ => some ⟨encodingRank e⟩

/-- Fixture: a request sourcing its package from a remote URL. -/
def reqRemote : ReqApplyPkg :=
  { DryRun := false, OrgID := "00000000000000a1",
    Remote := ⟨"https://example.com/pkg.yaml", ""⟩, RawPkg := "raw", Secrets := [] }

/-- Fixture: an inline-payload apply request with the given dry-run flag. -/
def reqInline (dry : Bool) : ReqApplyPkg :=
  { DryRun := dry, OrgID := "00000000000000a1",
    Remote := ⟨"", ""⟩, RawPkg := "pkg", Secrets := [("k", "v")] }

/-- Fixture: a service whose DryRun and Apply both succeed. -/
def svcOK : SVC :=
  { DryRun := fun _ _ _ => (⟨1⟩, ⟨2⟩, none),
    Apply := fun _ _ _ _ => (⟨9⟩, none),
    CreatePkg := fun _ => .ok [⟨3⟩] }

/-- Fixture: a service whose DryRun fails with a ParseError. -/
def svcDryParseErr : SVC :=
  { svcOK with DryRun := fun _ _ _ => (⟨1⟩, ⟨2⟩, some ⟨true, [⟨"bad field"⟩]⟩) }

/-- Fixture: a service whose DryRun fails with a non-parse error. -/
def svcDryHardErr : SVC :=
  { svcOK with DryRun := fun _ _ _ => (⟨1⟩, ⟨2⟩, some ⟨false, []⟩) }

/-- Fixture: a service whose Apply fails with a ParseError. -/
def svcApplyParseErr : SVC :=
  { svcOK with Apply := fun _ _ _ _ => (⟨9⟩, some ⟨true, [⟨"partial"⟩]⟩) }

/-- Fixture: a service whose Apply fails with a non-parse error. -/
def svcApplyHardErr : SVC :=
  { svcOK with Apply := fun _ _ _ _ => (⟨9⟩, some ⟨false, []⟩) }

end Pkger

namespace Pkger

/-- C1 counterexample: a PkgRemote with ContentType "yaml" and a URL
ending in ".json" resolves to the JSON encoding, not YAML — the ".json"
extension is tested in an earlier dispatch case than the "yaml"
content-type, so the content-type does not determine the encoding here. -/
theorem remote_content_type_loses_to_earlier_extension :
    (PkgRemote.mk "https://example.com/pkg.json" "yaml").Encoding = Encoding.EncodingJSON ∧
    ¬ (PkgRemote.mk "https://example.com/pkg.json" "yaml").Encoding = Encoding.EncodingYAML := by
  decide

/-- C1 (amended): a recognized explicit content-type (matched
case-insensitively) determines the resolved encoding whenever the URL's
file extension does not name an encoding strictly earlier in the fixed
dispatch order jsonnet, json, yml/yaml. -/
theorem remote_content_type_precedence_in_dispatch_order (p : PkgRemote) (e : Encoding)
    (hct : ctEncoding (strToLower p.ContentType) = some e)
    (hext : ∀ e', extEncoding (pathExt p.URL) = some e' → encodingRank e ≤ encodingRank e') :
    p.Encoding = e := by
  unfold ctEncoding at hct
  by_cases h1 : strToLower p.ContentType = "jsonnet"
  · rw [if_pos h1] at hct
    cases hct
    simp [PkgRemote.Encoding, h1]
  · rw [if_neg h1] at hct
    by_cases h2 : strToLower p.ContentType = "json"
    · rw [if_pos h2] at hct
      cases hct
      have hj : pathExt p.URL ≠ ".jsonnet" := by
        intro hx
        have := hext .EncodingJsonnet (by simp [extEncoding, hx])
        simp [encodingRank] at this
      simp [PkgRemote.Encoding, h1, h2, hj]
    · rw [if_neg h2] at hct
      by_cases h3 : strToLower p.ContentType = "yml" ∨ strToLower p.ContentType = "yaml"
      · rw [if_pos h3] at hct
        cases hct
        have hj : pathExt p.URL ≠ ".jsonnet" := by
          intro hx
          have := hext .EncodingJsonnet (by simp [extEncoding, hx])
          simp [encodingRank] at this
        have hn : pathExt p.URL ≠ ".json" := by
          intro hx
          have := hext .EncodingJSON (by simp [extEncoding, hx])
          simp [encodingRank] at this
        rcases h3 with h3 | h3 <;> simp [PkgRemote.Encoding, h1, h2, hj, hn, h3]
      · rw [if_neg h3] at hct
        exact Option.noConfusion hct

/-- Witness for the amended C1 at a concrete remote: content-type "YAML"
with an extension-free URL resolves to YAML. -/
theorem remote_content_type_precedence_in_dispatch_order_witness :
    (PkgRemote.mk "https://example.com/pkg" "YAML").Encoding = Encoding.EncodingYAML :=
  remote_content_type_precedence_in_dispatch_order _ _ (by decide)
    (fun _ h => Option.noConfusion h)

/-- C2: with a non-empty remote URL the package is parsed from that URL
with the remote's own derived encoding — independently of the
header-derived encoding — and with an empty remote URL the inline raw
payload is parsed with the header-derived encoding. -/
theorem pkg_source_resolution (parse : Encoding → PkgSource → Option Pkg)
    (enc enc' : Encoding) (r : ReqApplyPkg) :
    (r.Remote.URL ≠ "" →
      r.Pkg parse enc = parse r.Remote.Encoding (.fromHTTPRequest r.Remote.URL) ∧
      r.Pkg parse enc = r.Pkg parse enc') ∧
    (r.Remote.URL = "" →
      r.Pkg parse enc = parse enc (.fromReader r.RawPkg)) := by
  refine ⟨fun h => ?_, fun h => ?_⟩
  · simp [ReqApplyPkg.Pkg, h]
  · simp [ReqApplyPkg.Pkg, h]

/-- Witness for C2 at a concrete remote request: the tagging parse
collaborator receives the remote's YAML encoding, whatever the header
encoding was. -/
theorem pkg_source_resolution_witness :
    reqRemote.Pkg parseTag Encoding.EncodingJSON
        = parseTag reqRemote.Remote.Encoding (.fromHTTPRequest reqRemote.Remote.URL) ∧
    reqRemote.Pkg parseTag Encoding.EncodingJSON = reqRemote.Pkg parseTag Encoding.EncodingYAML :=
  (pkg_source_resolution parseTag Encoding.EncodingJSON Encoding.EncodingYAML reqRemote).1
    (by decide)

/-- C7: header-based encoding resolution is a case-sensitive match on the
Content-Type value: "application/x-jsonnet" yields Jsonnet, "text/yml" or
"application/x-yaml" yields YAML, and every other value — including an
absent header — yields JSON, with no error path. -/
theorem header_encoding_resolution :
    pkgEncoding (some "application/x-jsonnet") = Encoding.EncodingJsonnet ∧
    pkgEncoding (some "text/yml") = Encoding.EncodingYAML ∧
    pkgEncoding (some "application/x-yaml") = Encoding.EncodingYAML ∧
    pkgEncoding none = Encoding.EncodingJSON ∧
    ∀ v : String, v ≠ "application/x-jsonnet" → v ≠ "text/yml" → v ≠ "application/x-yaml" →
      pkgEncoding (some v) = Encoding.EncodingJSON := by
  refine ⟨by decide, by decide, by decide, by decide, fun v h1 h2 h3 => ?_⟩
  simp [pkgEncoding, headerGet, h1, h2, h3]

/-- Witness for C7: the match is case-sensitive, so an upper-cased YAML
content type falls through to the JSON default. -/
theorem header_encoding_resolution_witness :
    pkgEncoding (some "TEXT/YML") = Encoding.EncodingJSON :=
  header_encoding_resolution.2.2.2.2 "TEXT/YML" (by decide) (by decide) (by decide)

/-- C3: a dry-run-only request whose DryRun call succeeds yields a 200
JSON response carrying the dry-run diff and summary with an empty errors
list (the omitted `errors` field), and the Apply capability is never
invoked. -/
theorem dry_run_only_success_response (svc : SVC) (authorizer : Option UserID)
    (parse : Encoding → PkgSource → Option Pkg) (ct : Option String)
    (req : ReqApplyPkg) (orgID : ID) (userID : UserID) (pkg : Pkg)
    (sum : Summary) (diff : Diff)
    (hOrg : IDFromString req.OrgID = some orgID)
    (hAuth : authorizer = some userID)
    (hPkg : req.Pkg parse (pkgEncoding ct) = some pkg)
    (hDry : svc.DryRun orgID userID pkg = (sum, diff, none))
    (hFlag : req.DryRun = true) :
    applyPkg svc authorizer parse ct (some req) =
      (.jsonResp 200 ⟨diff, sum, []⟩, ⟨true, false⟩) := by
  simp [applyPkg, hOrg, hAuth, hPkg, hDry, IsParseErr, hFlag]

/-- Witness for C3: a concrete dry-run-only request against a succeeding
service returns 200 with the dry-run diff and summary and no apply call. -/
theorem dry_run_only_success_response_witness :
    applyPkg svcOK (some 5) parseAny none (some (reqInline true)) =
      (.jsonResp 200 ⟨⟨2⟩, ⟨1⟩, []⟩, ⟨true, false⟩) :=
  dry_run_only_success_response svcOK (some 5) parseAny none (reqInline true)
    161 5 ⟨7⟩ ⟨1⟩ ⟨2⟩ (by decide) rfl rfl rfl rfl

/-- C4: when the DryRun call fails with a ParseError, the response is a
422 JSON body carrying the dry-run diff and summary together with the
error's ValidationErrs, and the Apply capability is not invoked. -/
theorem dry_run_parse_error_response (svc : SVC) (authorizer : Option UserID)
    (parse : Encoding → PkgSource → Option Pkg) (ct : Option String)
    (req : ReqApplyPkg) (orgID : ID) (userID : UserID) (pkg : Pkg)
    (sum : Summary) (diff : Diff) (e : SvcErr)
    (hOrg : IDFromString req.OrgID = some orgID)
    (hAuth : authorizer = some userID)
    (hPkg : req.Pkg parse (pkgEncoding ct) = some pkg)
    (hDry : svc.DryRun orgID userID pkg = (sum, diff, some e))
    (hp : e.isParse = true) :
    applyPkg svc authorizer parse ct (some req) =
      (.jsonResp 422 ⟨diff, sum, e.validationErrs⟩, ⟨true, false⟩) := by
  simp [applyPkg, hOrg, hAuth, hPkg, hDry, IsParseErr, convertParseErr, hp]

/-- Witness for C4: a concrete request whose dry run reports a ParseError
gets 422 with the validation errors attached and no apply call. -/
theorem dry_run_parse_error_response_witness :
    applyPkg svcDryParseErr (some 5) parseAny none (some (reqInline true)) =
      (.jsonResp 422 ⟨⟨2⟩, ⟨1⟩, [⟨"bad field"⟩]⟩, ⟨true, false⟩) :=
  dry_run_parse_error_response svcDryParseErr (some 5) parseAny none (reqInline true)
    161 5 ⟨7⟩ ⟨1⟩ ⟨2⟩ ⟨true, [⟨"bad field"⟩]⟩ (by decide) rfl rfl rfl rfl

/-- C5: when a non-dry-run request's Apply call fails with a ParseError,
the response still has status 201 — the same as a clean apply — and its
body carries the dry-run diff, the summary returned by Apply (replacing
the dry-run summary), and the error's ValidationErrs. -/
theorem apply_parse_error_partial_response (svc : SVC) (authorizer : Option UserID)
    (parse : Encoding → PkgSource → Option Pkg) (ct : Option String)
    (req : ReqApplyPkg) (orgID : ID) (userID : UserID) (pkg : Pkg)
    (sum sum2 : Summary) (diff : Diff) (e : SvcErr)
    (hOrg : IDFromString req.OrgID = some orgID)
    (hAuth : authorizer = some userID)
    (hPkg : req.Pkg parse (pkgEncoding ct) = some pkg)
    (hDry : svc.DryRun orgID userID pkg = (sum, diff, none))
    (hFlag : req.DryRun = false)
    (hApply : svc.Apply orgID userID pkg req.Secrets = (sum2, some e))
    (hp : e.isParse = true) :
    applyPkg svc authorizer parse ct (some req) =
      (.jsonResp 201 ⟨diff, sum2, e.validationErrs⟩, ⟨true, true⟩) := by
  simp [applyPkg, hOrg, hAuth, hPkg, hDry, hFlag, hApply, IsParseErr, convertParseErr, hp]

/-- Witness for C5: a concrete apply whose Apply call reports a ParseError
returns 201 with the apply summary and the validation errors. -/
theorem apply_parse_error_partial_response_witness :
    applyPkg svcApplyParseErr (some 5) parseAny none (some (reqInline false)) =
      (.jsonResp 201 ⟨⟨2⟩, ⟨9⟩, [⟨"partial"⟩]⟩, ⟨true, true⟩) :=
  apply_parse_error_partial_response svcApplyParseErr (some 5) parseAny none (reqInline false)
    161 5 ⟨7⟩ ⟨1⟩ ⟨9⟩ ⟨2⟩ ⟨true, [⟨"partial"⟩]⟩ (by decide) rfl rfl rfl rfl rfl rfl

/-- C6: a non-parse error from DryRun stops the pipeline before Apply and
hands the error itself to the general error translation, with no diff or
summary in the body; a non-parse error from Apply is likewise handed to
the general error translation with no diff or summary in the body. -/
theorem hard_failure_stops_pipeline :
    (∀ (svc : SVC) (authorizer : Option UserID)
      (parse : Encoding → PkgSource → Option Pkg) (ct : Option String)
      (req : ReqApplyPkg) (orgID : ID) (userID : UserID) (pkg : Pkg)
      (sum : Summary) (diff : Diff) (e : SvcErr),
      IDFromString req.OrgID = some orgID →
      authorizer = some userID →
      req.Pkg parse (pkgEncoding ct) = some pkg →
      svc.DryRun orgID userID pkg = (sum, diff, some e) →
      e.isParse = false →
      applyPkg svc authorizer parse ct (some req) =
        (.handledError (.svcFailed (some e)), ⟨true, false⟩)) ∧
    (∀ (svc : SVC) (authorizer : Option UserID)
      (parse : Encoding → PkgSource → Option Pkg) (ct : Option String)
      (req : ReqApplyPkg) (orgID : ID) (userID : UserID) (pkg : Pkg)
      (sum sum2 : Summary) (diff : Diff) (e : SvcErr),
      IDFromString req.OrgID = some orgID →
      authorizer = some userID →
      req.Pkg parse (pkgEncoding ct) = some pkg →
      svc.DryRun orgID userID pkg = (sum, diff, none) →
      req.DryRun = false →
      svc.Apply orgID userID pkg req.Secrets = (sum2, some e) →
      e.isParse = false →
      applyPkg svc authorizer parse ct (some req) =
        (.handledError (.svcFailed (some e)), ⟨true, true⟩)) := by
  constructor
  · intro svc authorizer parse ct req orgID userID pkg sum diff e hOrg hAuth hPkg hDry hp
    simp [applyPkg, hOrg, hAuth, hPkg, hDry, IsParseErr, hp]
  · intro svc authorizer parse ct req orgID userID pkg sum sum2 diff e
      hOrg hAuth hPkg hDry hFlag hApply hp
    simp [applyPkg, hOrg, hAuth, hPkg, hDry, hFlag, hApply, IsParseErr, hp]

/-- Witness for C6: a concrete dry-run hard failure stops before Apply,
and a concrete apply hard failure is handed to the error translation. -/
theorem hard_failure_stops_pipeline_witness :
    applyPkg svcDryHardErr (some 5) parseAny none (some (reqInline false)) =
      (.handledError (.svcFailed (some ⟨false, []⟩)), ⟨true, false⟩) ∧
    applyPkg svcApplyHardErr (some 5) parseAny none (some (reqInline false)) =
      (.handledError (.svcFailed (some ⟨false, []⟩)), ⟨true, true⟩) :=
  ⟨hard_failure_stops_pipeline.1 svcDryHardErr (some 5) parseAny none (reqInline false)
      161 5 ⟨7⟩ ⟨1⟩ ⟨2⟩ ⟨false, []⟩ (by decide) rfl rfl rfl rfl,
    hard_failure_stops_pipeline.2 svcApplyHardErr (some 5) parseAny none (reqInline false)
      161 5 ⟨7⟩ ⟨1⟩ ⟨9⟩ ⟨2⟩ ⟨false, []⟩ (by decide) rfl rfl rfl rfl rfl rfl⟩

/-- C9: an apply request whose orgID fails identifier parsing is rejected
with the EConflict-coded invalid-organization error — a 4xx status under
the error-to-status translation — and neither DryRun nor Apply is
invoked. -/
theorem apply_invalid_org_rejected (svc : SVC) (authorizer : Option UserID)
    (parse : Encoding → PkgSource → Option Pkg) (ct : Option String)
    (req : ReqApplyPkg)
    (hOrg : IDFromString req.OrgID = none) :
    applyPkg svc authorizer parse ct (some req) =
      (.handledError (.invalidOrgID req.OrgID), ⟨false, false⟩) ∧
    (HandledErr.invalidOrgID req.OrgID).code = some ErrCode.EConflict ∧
    400 ≤ errCodeStatus ErrCode.EConflict ∧ errCodeStatus ErrCode.EConflict < 500 := by
  refine ⟨?_, rfl, by decide, by decide⟩
  simp [applyPkg, hOrg]

/-- Witness for C9: a concrete malformed orgID is rejected with no
collaborator calls. -/
theorem apply_invalid_org_rejected_witness :
    applyPkg svcOK (some 5) parseAny none
        (some { reqInline false with OrgID := "not-an-id" }) =
      (.handledError (.invalidOrgID "not-an-id"), ⟨false, false⟩) :=
  (apply_invalid_org_rejected svcOK (some 5) parseAny none
    { reqInline false with OrgID := "not-an-id" } (by decide)).1

/-- C8: an export/create request with both resources and orgIDs empty is
rejected with the EUnprocessableEntity-coded error — HTTP 422 under the
error-to-status translation — and the CreatePkg capability is not
called. -/
theorem create_empty_request_rejected (svc : SVC) (ct : Option String)
    (req : ReqCreatePkg)
    (hR : req.Resources = []) (hO : req.OrgIDs = []) :
    createPkg svc ct (some req) = (.handledError .emptyCreateReq, none) ∧
    HandledErr.emptyCreateReq.code = some ErrCode.EUnprocessableEntity ∧
    errCodeStatus ErrCode.EUnprocessableEntity = 422 := by
  refine ⟨?_, rfl, rfl⟩
  simp [createPkg, hR, hO]

/-- Witness for C8: the concrete empty export request is rejected with no
service call. -/
theorem create_empty_request_rejected_witness :
    createPkg svcOK none (some ⟨[], []⟩) = (.handledError .emptyCreateReq, none) :=
  (create_empty_request_rejected svcOK none ⟨[], []⟩ rfl rfl).1

/-- The create handler's option-building loop appends one
CreateWithAllOrgResources option per org id string that parses, skipping
the rest. -/
theorem createOpts_foldl_filterMap (init : List CreatePkgSetFn) (orgIDs : List String) :
    orgIDs.foldl
      (fun opts orgIDStr =>
        match IDFromString orgIDStr with
        | none => opts
        | some orgID => opts ++ [.CreateWithAllOrgResources orgID])
      init =
    init ++ orgIDs.filterMap
      (fun s => (IDFromString s).map CreatePkgSetFn.CreateWithAllOrgResources) := by
  induction orgIDs generalizing init with
  | nil => simp
  | cons s rest ih =>
    cases h : IDFromString s <;> simp [List.foldl_cons, h, ih]

/-- C10: on a create request that passes the emptiness check, every orgID
string that fails identifier parsing is silently skipped — it produces no
error and contributes no option — and the CreatePkg capability is called
with the existing-resources option followed by exactly the options of the
well-formed org ids. -/
theorem create_malformed_org_ids_skipped (svc : SVC) (ct : Option String)
    (req : ReqCreatePkg)
    (h : ¬(req.Resources.length = 0 ∧ req.OrgIDs.length = 0)) :
    (createPkg svc ct (some req)).2 =
      some (.CreateWithExistingResources req.Resources ::
        req.OrgIDs.filterMap
          (fun s => (IDFromString s).map CreatePkgSetFn.CreateWithAllOrgResources)) := by
  rw [createPkg]
  rw [if_neg h]
  rw [createOpts_foldl_filterMap]
  cases hc : svc.CreatePkg (CreatePkgSetFn.CreateWithExistingResources req.Resources ::
      req.OrgIDs.filterMap
        (fun s => (IDFromString s).map CreatePkgSetFn.CreateWithAllOrgResources)) <;>
    simp [hc]

/-- Witness for C10: with only malformed orgID strings and a non-empty
resources sequence, the service is still called, with no org option. -/
theorem create_malformed_org_ids_skipped_witness :
    (createPkg svcOK none (some ⟨["zzz", "123"], [⟨"bucket"⟩]⟩)).2 =
      some [.CreateWithExistingResources [⟨"bucket"⟩]] := by
  have h := create_malformed_org_ids_skipped svcOK none ⟨["zzz", "123"], [⟨"bucket"⟩]⟩
    (by decide)
  rw [h]
  decide

end Pkger
